import Mathlib

/-!
Shallow embedding of the motor-controller sketch (learn/replay state
machine).  The global mutable variables of the sketch become fields of
`CState`; the body of `loop()` becomes the pure function `loopStep`,
split into `processCommand` (the serial-command handling) and
`replayTick` (the replay scheduler branch).  Side effects on the motor
pins and the serial port are modelled as an explicit `Effect` trace.
All `unsigned long` arithmetic is carried out on `Nat` modulo 2^32.
-/

namespace MicroController

/-- Pin constant `IN1 = 4`. -/
def IN1 : Nat := 4

/-- Pin constant `IN2 = 5`. -/
def IN2 : Nat := 5

/-- Pin constant `IN3 = 6`. -/
def IN3 : Nat := 6

/-- Pin constant `IN4 = 7`. -/
def IN4 : Nat := 7

/-- Pin constant `motorLeftSpeedPin = 9`. -/
def motorLeftSpeedPin : Nat := 9

/-- Pin constant `motorRightSpeedPin = 10`. -/
def motorRightSpeedPin : Nat := 10

/-- Arduino `HIGH`. -/
def HIGH : Nat := 1

/-- Arduino `LOW`. -/
def LOW : Nat := 0

/-- `const int MAX_COMMANDS = 100`. -/
def MAX_COMMANDS : Nat := 100

/-- `2^32`, the modulus of `unsigned long` arithmetic. -/
def ULONG_MOD : Nat := 4294967296

/-- `struct Command { char action; unsigned long duration; }`. -/
structure Command where
  action : Char
  duration : Nat
deriving DecidableEq, Repr

/-- The sketch's global mutable state: `mode`, `commandList`,
`commandCount`, `replayIndex`, `commandStartTime`, `isReplaying`.
The fixed array `commandList[MAX_COMMANDS]` is modelled as a total
function from indices; only indices below `commandCount` are live. -/
structure CState where
  mode : Int
  commandList : Nat → Command
  commandCount : Nat
  replayIndex : Nat
  commandStartTime : Nat
  isReplaying : Bool

/-- One observable side effect: a pin write or a serial output. -/
inductive Effect where
  | digitalWrite (pin : Nat) (value : Nat)
  | analogWrite (pin : Nat) (value : Nat)
  | serialPrint (s : String)
  | serialPrintln (s : String)
deriving DecidableEq, Repr

/-- Is `c` one of the whitespace characters recognised by `isspace`
(and hence by Arduino `String::trim` / `atol`)? -/
def isSpaceChar (c : Char) : Bool :=
  c = ' ' || c = '\t' || c = '\n' || c = '\x0b' || c = '\x0c' || c = '\r'

/-- Arduino `String::trim()`: strip leading and trailing whitespace. -/
def trimChars (l : List Char) : List Char :=
  ((l.dropWhile isSpaceChar).reverse.dropWhile isSpaceChar).reverse

/-- Arduino `String::equalsIgnoreCase`. -/
def eqIgnoreCase (a b : List Char) : Bool :=
  a.map Char.toLower == b.map Char.toLower

/-- Arduino `String::charAt(i)` (returns the NUL character when out of
range, as the C++ accessor does). -/
def charAt (l : List Char) (i : Nat) : Char :=
  l.getD i (Char.ofNat 0)

/-- Arduino `String::indexOf(c)`: first index of `c`, `none` standing
for the C++ return value `-1`. -/
def indexOfChar (l : List Char) (c : Char) : Option Nat :=
  l.findIdx? (fun x => x == c)

/-- The digit-consuming loop of `atol`: accumulate decimal digits,
stopping at the first non-digit. -/
def parseDigits : List Char → Nat → Nat
  | c :: cs, acc =>
      if c.isDigit then parseDigits cs (acc * 10 + (c.toNat - 48)) else acc
  | [], acc => acc

/-- Arduino `String::toInt()` (`atol` semantics): skip leading
whitespace, then an optional sign, then consume decimal digits; a
string with no digits at that position yields `0`. -/
def stringToInt (l : List Char) : Int :=
  match l.dropWhile isSpaceChar with
  | [] => 0
  | c :: cs =>
      if c = '-' then - (parseDigits cs 0 : Int)
      else if c = '+' then (parseDigits cs 0 : Int)
      else (parseDigits (c :: cs) 0 : Int)

/-- C conversion of a (possibly negative) `long` to `unsigned long`:
reduce modulo `2^32`. -/
def toULong (i : Int) : Nat :=
  (i % (ULONG_MOD : Int)).toNat

/-- `unsigned long` subtraction `a - b` modulo `2^32`. -/
def ulSub (a b : Nat) : Nat :=
  (a % ULONG_MOD + (ULONG_MOD - b % ULONG_MOD)) % ULONG_MOD

/-- `setLeftMotor(speed, direction)`: direction pin writes, PWM write,
debug prints (the `digitalRead` values echo what was just written). -/
def setLeftMotor (speed : Nat) (direction : Nat) : List Effect :=
  (if direction = HIGH then
    [Effect.digitalWrite IN1 1, Effect.digitalWrite IN2 0]
  else
    [Effect.digitalWrite IN1 0, Effect.digitalWrite IN2 1])
  ++ [Effect.analogWrite motorLeftSpeedPin speed]
  ++ [Effect.serialPrint "Left Motor - IN1: ",
      Effect.serialPrintln (toString (if direction = HIGH then 1 else 0)),
      Effect.serialPrint "Left Motor - IN2: ",
      Effect.serialPrintln (toString (if direction = HIGH then 0 else 1)),
      Effect.serialPrint "Left Motor Speed: ",
      Effect.serialPrintln (toString speed)]

/-- `setRightMotor(speed, direction)`. -/
def setRightMotor (speed : Nat) (direction : Nat) : List Effect :=
  (if direction = HIGH then
    [Effect.digitalWrite IN3 1, Effect.digitalWrite IN4 0]
  else
    [Effect.digitalWrite IN3 0, Effect.digitalWrite IN4 1])
  ++ [Effect.analogWrite motorRightSpeedPin speed]
  ++ [Effect.serialPrint "Right Motor - IN3: ",
      Effect.serialPrintln (toString (if direction = HIGH then 1 else 0)),
      Effect.serialPrint "Right Motor - IN4: ",
      Effect.serialPrintln (toString (if direction = HIGH then 0 else 1)),
      Effect.serialPrint "Right Motor Speed: ",
      Effect.serialPrintln (toString speed)]

/-- `stopMotors()`: zero both PWM pins and report. -/
def stopMotors : List Effect :=
  [Effect.analogWrite motorLeftSpeedPin 0,
   Effect.analogWrite motorRightSpeedPin 0,
   Effect.serialPrintln "Motors stopped."]

/-- `executeCommand(action, duration)`: the `switch` on the action
character; an unrecognised action only prints a diagnostic. -/
def executeCommand (action : Char) (duration : Nat) : List Effect :=
  if action = 'F' then setLeftMotor 150 HIGH ++ setRightMotor 150 HIGH
  else if action = 'B' then setLeftMotor 150 LOW ++ setRightMotor 150 LOW
  else if action = 'L' then setLeftMotor 0 LOW ++ setRightMotor 150 HIGH
  else if action = 'R' then setLeftMotor 150 HIGH ++ setRightMotor 0 LOW
  else [Effect.serialPrint "Unknown action: ",
        Effect.serialPrintln (String.mk [action])]

/-- The serial-command handling block of `loop()` (lines 54-107 of the
sketch), applied to one received line `raw` (which the sketch trims). -/
def processCommand (s : CState) (raw : String) : CState × List Effect :=
  let command := trimChars raw.toList
  let recvEff : List Effect :=
    [Effect.serialPrint "Received command: ",
     Effect.serialPrintln (String.mk command)]
  if eqIgnoreCase command ("LEARN".toList) then
    ({ s with mode := 0, commandCount := 0 },
     recvEff ++ [Effect.serialPrintln "Mode set to LEARN"])
  else if eqIgnoreCase command ("REPLAY".toList) then
    if s.commandCount = 0 then
      (s, recvEff ++ [Effect.serialPrintln "No commands to replay."])
    else
      ({ s with mode := 1, replayIndex := 0, isReplaying := true },
       recvEff ++ [Effect.serialPrintln "Mode set to REPLAY"])
  else if eqIgnoreCase command ("STOP".toList) then
    ({ s with mode := -1 },
     recvEff ++ stopMotors ++
       [Effect.serialPrintln "STOP command received. Vehicle stopped."])
  else if s.mode = 0 then
    if 2 ≤ command.length then
      match indexOfChar command ':' with
      | some separatorIndex =>
          let action := (charAt command 0).toUpper
          let durationStr := command.drop (separatorIndex + 1)
          let duration := toULong (stringToInt durationStr)
          if s.commandCount < MAX_COMMANDS then
            ({ s with
                commandList := fun i =>
                  if i = s.commandCount then
                    { action := action, duration := duration }
                  else s.commandList i,
                commandCount := s.commandCount + 1 },
             recvEff ++
               [Effect.serialPrint "Stored command ",
                Effect.serialPrint (String.mk [action]),
                Effect.serialPrint " with duration ",
                Effect.serialPrintln (toString duration)] ++
               executeCommand action duration)
          else
            (s, recvEff ++
              [Effect.serialPrintln
                "Command list is full. Cannot store more commands."])
      | none =>
          (s, recvEff ++
            [Effect.serialPrintln
              "Invalid command format. Use <Action>:<Duration>, e.g., F:1000"])
    else
      (s, recvEff ++
        [Effect.serialPrintln
          "Invalid command. Use <Action>:<Duration>, e.g., F:1000"])
  else
    (s, recvEff)

/-- The replay-mode branch of `loop()` (lines 113-141): one scheduler
tick, with `currentTime` standing for the `millis()` sample. -/
def replayTick (s : CState) (currentTime : Nat) : CState × List Effect :=
  if s.isReplaying ∧ s.replayIndex < s.commandCount then
    let currentCommand := s.commandList s.replayIndex
    if s.commandStartTime = 0 then
      ({ s with commandStartTime := currentTime },
       executeCommand currentCommand.action currentCommand.duration ++
         [Effect.serialPrint "Replaying command ",
          Effect.serialPrintln (String.mk [currentCommand.action])])
    else
      if currentCommand.duration ≤ ulSub currentTime s.commandStartTime then
        ({ s with replayIndex := s.replayIndex + 1, commandStartTime := 0 },
         stopMotors)
      else
        (s, [])
  else if s.isReplaying ∧ s.commandCount ≤ s.replayIndex then
    ({ s with mode := -1, isReplaying := false },
     [Effect.serialPrintln "Replay finished."])
  else
    (s, [])

/-- One full iteration of `loop()`: optional received line, then the
mode dispatch (the replay tick runs in the same iteration whenever the
mode is `1` after command handling). -/
def loopStep (s : CState) (line : Option String) (now : Nat) :
    CState × List Effect :=
  let p :=
    match line with
    | some raw => processCommand s raw
    | none => (s, ([] : List Effect))
  if p.1.mode = 0 then p
  else if p.1.mode = 1 then
    let t := replayTick p.1 now
    (t.1, p.2 ++ t.2)
  else p

/-- The global state right after `setup()`: idle mode, zeroed counters,
zero-initialised command array. -/
def initialState : CState :=
  { mode := -1
    commandList := fun _ => { action := Char.ofNat 0, duration := 0 }
    commandCount := 0
    replayIndex := 0
    commandStartTime := 0
    isReplaying := false }

/-- Run a sequence of loop iterations, each given as (received line,
`millis()` sample). -/
def runScript (s : CState) : List (Option String × Nat) → CState
  | [] => s
  | (line, now) :: rest => runScript (loopStep s line now).1 rest

end MicroController

namespace MicroController

lemma ulSub_eq_sub (a b : Nat) (ha : a < ULONG_MOD) (hba : b ≤ a) :
    ulSub a b = a - b := by
  have hb : b < ULONG_MOD := lt_of_le_of_lt hba ha
  unfold ulSub
  rw [Nat.mod_eq_of_lt ha, Nat.mod_eq_of_lt hb]
  have h1 : a % ULONG_MOD = a := Nat.mod_eq_of_lt ha
  have h2 : a + (ULONG_MOD - b) = (a - b) + ULONG_MOD := by
    unfold ULONG_MOD at *; omega
  rw [h2, Nat.add_mod_right, Nat.mod_eq_of_lt (by unfold ULONG_MOD at *; omega)]

lemma replayTick_running (s : CState) (now : Nat)
    (hrep : s.isReplaying = true) (hidx : s.replayIndex < s.commandCount)
    (hst : s.commandStartTime ≠ 0) :
    replayTick s now =
      if (s.commandList s.replayIndex).duration ≤ ulSub now s.commandStartTime then
        ({ s with replayIndex := s.replayIndex + 1, commandStartTime := 0 },
         stopMotors)
      else (s, []) := by
  unfold replayTick
  rw [if_pos (show (s.isReplaying = true) ∧ s.replayIndex < s.commandCount from ⟨hrep, hidx⟩),
    if_neg hst]

lemma replayTick_start (s : CState) (now : Nat)
    (hrep : s.isReplaying = true) (hidx : s.replayIndex < s.commandCount)
    (hst : s.commandStartTime = 0) :
    replayTick s now =
      ({ s with commandStartTime := now },
       executeCommand (s.commandList s.replayIndex).action
           (s.commandList s.replayIndex).duration ++
         [Effect.serialPrint "Replaying command ",
          Effect.serialPrintln (String.mk [(s.commandList s.replayIndex).action])]) := by
  unfold replayTick
  rw [if_pos (show (s.isReplaying = true) ∧ s.replayIndex < s.commandCount from ⟨hrep, hidx⟩),
    if_pos hst]

end MicroController

namespace MicroController

/-- A concrete state in Replay mode with the first step running
(started at time 5, duration 10). -/
def runningState : CState :=
  { mode := 1
    commandList := fun _ => { action := 'F', duration := 10 }
    commandCount := 1
    replayIndex := 0
    commandStartTime := 5
    isReplaying := true }

/-- A concrete state in Replay mode holding one zero-duration step,
with the cursor's start time unset. -/
def zeroDurState : CState :=
  { mode := 1
    commandList := fun _ => { action := 'F', duration := 0 }
    commandCount := 1
    replayIndex := 0
    commandStartTime := 0
    isReplaying := true }

/-- C4: a running replay step (start time recorded, nonzero) finishes
on a tick at time `now` exactly when `now - step_start >= duration`;
the boundary `now - step_start = duration` is inclusive on the
finishing side (the motors stop and the cursor advances). -/
theorem C4_finish_boundary_inclusive (s : CState) (now : Nat)
    (hrep : s.isReplaying = true) (hidx : s.replayIndex < s.commandCount)
    (hst : s.commandStartTime ≠ 0)
    (hle : s.commandStartTime ≤ now) (hnow : now < ULONG_MOD) :
    ((replayTick s now).1.replayIndex = s.replayIndex + 1 ∧
        (replayTick s now).2 = stopMotors) ↔
      (s.commandList s.replayIndex).duration ≤ now - s.commandStartTime := by
  rw [replayTick_running s now hrep hidx hst,
    ulSub_eq_sub now s.commandStartTime hnow hle]
  by_cases h : (s.commandList s.replayIndex).duration ≤ now - s.commandStartTime
  · rw [if_pos h]; simp [h]
  · rw [if_neg h]; simp [h]

/-- C4 witness: with start time 5, duration 10 and `now = 15` the
elapsed time equals the duration exactly, and the step finishes. -/
theorem C4_finish_boundary_inclusive_witness :
    (replayTick runningState 15).1.replayIndex = runningState.replayIndex + 1 ∧
      (replayTick runningState 15).2 = stopMotors :=
  (C4_finish_boundary_inclusive runningState 15 rfl (by decide) (by decide)
      (by decide) (by decide)).mpr (by decide)

/-- C5 fails as stated: a zero-duration step started on a tick whose
`millis()` sample is 0 records start time 0, which is the "unset"
sentinel, so the immediately following tick does not advance past the
step (the cursor index is still 0 after the next tick). -/
theorem C5_counterexample :
    (runScript initialState
        [(some "LEARN", 0), (some "F:0", 0), (some "REPLAY", 0)]).commandStartTime = 0 ∧
      (runScript initialState
          [(some "LEARN", 0), (some "F:0", 0), (some "REPLAY", 0)]).commandList 0 =
        { action := 'F', duration := 0 } ∧
      Effect.analogWrite motorLeftSpeedPin 150 ∈
        (loopStep (runScript initialState [(some "LEARN", 0), (some "F:0", 0)])
            (some "REPLAY") 0).2 ∧
      (runScript initialState
          [(some "LEARN", 0), (some "F:0", 0), (some "REPLAY", 0), (none, 7)]).replayIndex = 0 := by
  decide

/-- C5 amended: a step is never started and finished within the same
tick; and a zero-duration step whose start tick carries a nonzero
timestamp is finished on the immediately following tick. (When the
start timestamp is 0 the recorded start time coincides with the unset
sentinel and the step is restarted instead, per the counterexample.) -/
theorem C5_zero_duration_next_tick (s : CState) (now now2 : Nat)
    (hrep : s.isReplaying = true) (hidx : s.replayIndex < s.commandCount)
    (hdur : (s.commandList s.replayIndex).duration = 0)
    (hunset : s.commandStartTime = 0) :
    (replayTick s now).1.replayIndex = s.replayIndex ∧
      (now ≠ 0 →
        (replayTick (replayTick s now).1 now2).1.replayIndex = s.replayIndex + 1) := by
  rw [replayTick_start s now hrep hidx hunset]
  refine ⟨rfl, fun hnz => ?_⟩
  rw [replayTick_running { s with commandStartTime := now } now2 hrep hidx hnz]
  simp [hdur]

/-- C5 amended witness: the zero-duration step started at time 3 is
not finished on its start tick, and is finished on the next tick. -/
theorem C5_zero_duration_next_tick_witness :
    (replayTick zeroDurState 3).1.replayIndex = zeroDurState.replayIndex ∧
      (replayTick (replayTick zeroDurState 3).1 4).1.replayIndex =
        zeroDurState.replayIndex + 1 :=
  ⟨(C5_zero_duration_next_tick zeroDurState 3 4 rfl (by decide) (by decide) rfl).1,
   (C5_zero_duration_next_tick zeroDurState 3 4 rfl (by decide) (by decide) rfl).2
     (by decide)⟩

/-- C9: starting a replay step on a tick with `millis() = 0` records
start time 0, the unset sentinel, so the next tick takes the
start branch again: it re-issues the step's drive command and records
the later tick's timestamp as the new start time. -/
theorem C9_zero_time_sentinel (s : CState) (now2 : Nat)
    (hrep : s.isReplaying = true) (hidx : s.replayIndex < s.commandCount)
    (hunset : s.commandStartTime = 0) :
    (replayTick s 0).1.commandStartTime = 0 ∧
      (replayTick s 0).1.replayIndex = s.replayIndex ∧
      (replayTick (replayTick s 0).1 now2).1.commandStartTime = now2 ∧
      (replayTick (replayTick s 0).1 now2).2 =
        executeCommand (s.commandList s.replayIndex).action
            (s.commandList s.replayIndex).duration ++
          [Effect.serialPrint "Replaying command ",
           Effect.serialPrintln (String.mk [(s.commandList s.replayIndex).action])] := by
  rw [replayTick_start s 0 hrep hidx hunset]
  refine ⟨rfl, rfl, ?_, ?_⟩ <;>
    rw [replayTick_start { s with commandStartTime := 0 } now2 hrep hidx rfl]

/-- C9 witness at a concrete replay state and second tick time 9. -/
theorem C9_zero_time_sentinel_witness :
    (replayTick zeroDurState 0).1.commandStartTime = 0 ∧
      (replayTick zeroDurState 0).1.replayIndex = zeroDurState.replayIndex ∧
      (replayTick (replayTick zeroDurState 0).1 9).1.commandStartTime = 9 ∧
      (replayTick (replayTick zeroDurState 0).1 9).2 =
        executeCommand (zeroDurState.commandList zeroDurState.replayIndex).action
            (zeroDurState.commandList zeroDurState.replayIndex).duration ++
          [Effect.serialPrint "Replaying command ",
           Effect.serialPrintln
             (String.mk [(zeroDurState.commandList zeroDurState.replayIndex).action])] :=
  C9_zero_time_sentinel zeroDurState 9 rfl (by decide) rfl

end MicroController

namespace MicroController

lemma eqIgnoreCase_eq (a b : List Char) (h : eqIgnoreCase a b = true) :
    a.map Char.toLower = b.map Char.toLower := by
  simpa [eqIgnoreCase] using h

lemma eqIgnoreCase_false_of_ne (a b c : List Char)
    (hb : eqIgnoreCase a b = true)
    (hne : b.map Char.toLower ≠ c.map Char.toLower) :
    eqIgnoreCase a c = false := by
  cases h : eqIgnoreCase a c with
  | false => rfl
  | true =>
      exact absurd ((eqIgnoreCase_eq a b hb).symm.trans (eqIgnoreCase_eq a c h)) hne

lemma processCommand_learn (s : CState) (raw : String)
    (h : eqIgnoreCase (trimChars raw.toList) ("LEARN".toList) = true) :
    processCommand s raw =
      ({ s with mode := 0, commandCount := 0 },
       [Effect.serialPrint "Received command: ",
        Effect.serialPrintln (String.mk (trimChars raw.toList)),
        Effect.serialPrintln "Mode set to LEARN"]) := by
  unfold processCommand
  rw [if_pos h]
  rfl

lemma processCommand_replay_empty (s : CState) (raw : String)
    (h : eqIgnoreCase (trimChars raw.toList) ("REPLAY".toList) = true)
    (hempty : s.commandCount = 0) :
    processCommand s raw =
      (s, [Effect.serialPrint "Received command: ",
           Effect.serialPrintln (String.mk (trimChars raw.toList)),
           Effect.serialPrintln "No commands to replay."]) := by
  have hL : eqIgnoreCase (trimChars raw.toList) ("LEARN".toList) = false :=
    eqIgnoreCase_false_of_ne _ _ _ h (by decide)
  unfold processCommand
  rw [if_neg (show ¬ (eqIgnoreCase (trimChars raw.toList) ("LEARN".toList) = true) by
        rw [hL]; decide),
    if_pos h, if_pos hempty]
  rfl

lemma processCommand_replay_nonempty (s : CState) (raw : String)
    (h : eqIgnoreCase (trimChars raw.toList) ("REPLAY".toList) = true)
    (hne : s.commandCount ≠ 0) :
    processCommand s raw =
      ({ s with mode := 1, replayIndex := 0, isReplaying := true },
       [Effect.serialPrint "Received command: ",
        Effect.serialPrintln (String.mk (trimChars raw.toList)),
        Effect.serialPrintln "Mode set to REPLAY"]) := by
  have hL : eqIgnoreCase (trimChars raw.toList) ("LEARN".toList) = false :=
    eqIgnoreCase_false_of_ne _ _ _ h (by decide)
  unfold processCommand
  rw [if_neg (show ¬ (eqIgnoreCase (trimChars raw.toList) ("LEARN".toList) = true) by
        rw [hL]; decide),
    if_pos h, if_neg hne]
  rfl

lemma processCommand_stop (s : CState) (raw : String)
    (h : eqIgnoreCase (trimChars raw.toList) ("STOP".toList) = true) :
    processCommand s raw =
      ({ s with mode := -1 },
       [Effect.serialPrint "Received command: ",
        Effect.serialPrintln (String.mk (trimChars raw.toList)),
        Effect.analogWrite motorLeftSpeedPin 0,
        Effect.analogWrite motorRightSpeedPin 0,
        Effect.serialPrintln "Motors stopped.",
        Effect.serialPrintln "STOP command received. Vehicle stopped."]) := by
  have hL : eqIgnoreCase (trimChars raw.toList) ("LEARN".toList) = false :=
    eqIgnoreCase_false_of_ne _ _ _ h (by decide)
  have hR : eqIgnoreCase (trimChars raw.toList) ("REPLAY".toList) = false :=
    eqIgnoreCase_false_of_ne _ _ _ h (by decide)
  unfold processCommand
  rw [if_neg (show ¬ (eqIgnoreCase (trimChars raw.toList) ("LEARN".toList) = true) by
        rw [hL]; decide),
    if_neg (show ¬ (eqIgnoreCase (trimChars raw.toList) ("REPLAY".toList) = true) by
        rw [hR]; decide),
    if_pos h]
  rfl

lemma processCommand_learn_store (s : CState) (raw : String) (k : Nat)
    (hmode : s.mode = 0)
    (h1 : eqIgnoreCase (trimChars raw.toList) ("LEARN".toList) = false)
    (h2 : eqIgnoreCase (trimChars raw.toList) ("REPLAY".toList) = false)
    (h3 : eqIgnoreCase (trimChars raw.toList) ("STOP".toList) = false)
    (hlen : 2 ≤ (trimChars raw.toList).length)
    (hsep : indexOfChar (trimChars raw.toList) ':' = some k)
    (hcap : s.commandCount < MAX_COMMANDS) :
    processCommand s raw =
      ({ s with
          commandList := fun i =>
            if i = s.commandCount then
              { action := (charAt (trimChars raw.toList) 0).toUpper,
                duration :=
                  toULong (stringToInt ((trimChars raw.toList).drop (k + 1))) }
            else s.commandList i,
          commandCount := s.commandCount + 1 },
       [Effect.serialPrint "Received command: ",
        Effect.serialPrintln (String.mk (trimChars raw.toList)),
        Effect.serialPrint "Stored command ",
        Effect.serialPrint (String.mk [(charAt (trimChars raw.toList) 0).toUpper]),
        Effect.serialPrint " with duration ",
        Effect.serialPrintln
          (toString (toULong (stringToInt ((trimChars raw.toList).drop (k + 1)))))] ++
         executeCommand ((charAt (trimChars raw.toList) 0).toUpper)
           (toULong (stringToInt ((trimChars raw.toList).drop (k + 1))))) := by
  unfold processCommand
  rw [if_neg (show ¬ (eqIgnoreCase (trimChars raw.toList) ("LEARN".toList) = true) by
        rw [h1]; decide),
    if_neg (show ¬ (eqIgnoreCase (trimChars raw.toList) ("REPLAY".toList) = true) by
        rw [h2]; decide),
    if_neg (show ¬ (eqIgnoreCase (trimChars raw.toList) ("STOP".toList) = true) by
        rw [h3]; decide),
    if_pos hmode, if_pos hlen, hsep]
  simp only []
  rw [if_pos hcap]
  rfl

lemma processCommand_learn_full (s : CState) (raw : String) (k : Nat)
    (hmode : s.mode = 0)
    (h1 : eqIgnoreCase (trimChars raw.toList) ("LEARN".toList) = false)
    (h2 : eqIgnoreCase (trimChars raw.toList) ("REPLAY".toList) = false)
    (h3 : eqIgnoreCase (trimChars raw.toList) ("STOP".toList) = false)
    (hlen : 2 ≤ (trimChars raw.toList).length)
    (hsep : indexOfChar (trimChars raw.toList) ':' = some k)
    (hcap : ¬ s.commandCount < MAX_COMMANDS) :
    processCommand s raw =
      (s, [Effect.serialPrint "Received command: ",
           Effect.serialPrintln (String.mk (trimChars raw.toList)),
           Effect.serialPrintln
             "Command list is full. Cannot store more commands."]) := by
  unfold processCommand
  rw [if_neg (show ¬ (eqIgnoreCase (trimChars raw.toList) ("LEARN".toList) = true) by
        rw [h1]; decide),
    if_neg (show ¬ (eqIgnoreCase (trimChars raw.toList) ("REPLAY".toList) = true) by
        rw [h2]; decide),
    if_neg (show ¬ (eqIgnoreCase (trimChars raw.toList) ("STOP".toList) = true) by
        rw [h3]; decide),
    if_pos hmode, if_pos hlen, hsep]
  simp only []
  rw [if_neg hcap]
  rfl

end MicroController

namespace MicroController

/-- A concrete state in Learn mode with an empty buffer. -/
def learnState : CState :=
  { mode := 0
    commandList := fun _ => { action := Char.ofNat 0, duration := 0 }
    commandCount := 0
    replayIndex := 0
    commandStartTime := 0
    isReplaying := false }

/-- C1 fails as stated: after a replay interrupted mid-step by STOP,
re-entering Replay via REPLAY leaves the stale step-start time in
place (here 5, not the unset value 0), so the first tick after entry
does not treat the first step as unstarted: the entry iteration's own
tick issues no drive command (its effects are the three serial lines
of the command handling alone). -/
theorem C1_counterexample :
    (runScript initialState
        [(some "LEARN", 0), (some "F:1000", 0), (some "REPLAY", 5),
         (some "STOP", 6), (some "REPLAY", 7)]).mode = 1 ∧
      (runScript initialState
          [(some "LEARN", 0), (some "F:1000", 0), (some "REPLAY", 5),
           (some "STOP", 6), (some "REPLAY", 7)]).commandStartTime = 5 ∧
      (loopStep (runScript initialState
            [(some "LEARN", 0), (some "F:1000", 0), (some "REPLAY", 5),
             (some "STOP", 6)]) (some "REPLAY") 7).2 =
        [Effect.serialPrint "Received command: ",
         Effect.serialPrintln "REPLAY",
         Effect.serialPrintln "Mode set to REPLAY"] := by
  decide

/-- C1 amended: entering Replay via REPLAY with a non-empty buffer
resets the replay index to 0 and sets the replaying flag, but leaves
the step-start time unchanged; the cursor's start time is unset after
entry only when it was already 0 beforehand. -/
theorem C1_replay_entry_resets_index_not_start (s : CState) (raw : String)
    (h : eqIgnoreCase (trimChars raw.toList) ("REPLAY".toList) = true)
    (hne : s.commandCount ≠ 0) :
    (processCommand s raw).1.mode = 1 ∧
      (processCommand s raw).1.replayIndex = 0 ∧
      (processCommand s raw).1.isReplaying = true ∧
      (processCommand s raw).1.commandStartTime = s.commandStartTime := by
  rw [processCommand_replay_nonempty s raw h hne]
  exact ⟨rfl, rfl, rfl, rfl⟩

/-- C1 amended witness at a concrete mid-step replay state. -/
theorem C1_replay_entry_resets_index_not_start_witness :
    (processCommand runningState "REPLAY").1.mode = 1 ∧
      (processCommand runningState "REPLAY").1.replayIndex = 0 ∧
      (processCommand runningState "REPLAY").1.isReplaying = true ∧
      (processCommand runningState "REPLAY").1.commandStartTime =
        runningState.commandStartTime :=
  C1_replay_entry_resets_index_not_start runningState "REPLAY" (by decide) (by decide)

/-- C2 fails as stated: with a replay step running (started at time 5),
receiving LEARN switches to Learn mode but stops no actuator (the
handling emits only three serial lines, no pin write), and the cursor's
step-start time survives the command. -/
theorem C2_counterexample :
    (runScript initialState
        [(some "LEARN", 0), (some "F:1000", 0), (some "REPLAY", 5)]).mode = 1 ∧
      (runScript initialState
          [(some "LEARN", 0), (some "F:1000", 0), (some "REPLAY", 5)]).commandStartTime = 5 ∧
      (loopStep (runScript initialState
            [(some "LEARN", 0), (some "F:1000", 0), (some "REPLAY", 5)])
          (some "LEARN") 6).2 =
        [Effect.serialPrint "Received command: ",
         Effect.serialPrintln "LEARN",
         Effect.serialPrintln "Mode set to LEARN"] ∧
      (loopStep (runScript initialState
            [(some "LEARN", 0), (some "F:1000", 0), (some "REPLAY", 5)])
          (some "LEARN") 6).1.commandStartTime = 5 := by
  decide

/-- C2 amended: STOP stops the actuators synchronously and sets the
mode to Idle; LEARN sets the mode to Learn without writing any pin; in
both cases the mode after command handling is not Replay, so the
scheduler branch does not run in that loop iteration (the iteration is
exactly the command handling); the cursor's step-start time is not
discarded by either command. -/
theorem C2_stop_learn_abort (s : CState) (raw : String) (now : Nat) :
    (eqIgnoreCase (trimChars raw.toList) ("STOP".toList) = true →
        (processCommand s raw).1.mode = -1 ∧
          Effect.analogWrite motorLeftSpeedPin 0 ∈ (processCommand s raw).2 ∧
          Effect.analogWrite motorRightSpeedPin 0 ∈ (processCommand s raw).2 ∧
          (processCommand s raw).1.commandStartTime = s.commandStartTime ∧
          loopStep s (some raw) now = processCommand s raw) ∧
      (eqIgnoreCase (trimChars raw.toList) ("LEARN".toList) = true →
        (processCommand s raw).1.mode = 0 ∧
          (∀ p v, Effect.analogWrite p v ∉ (processCommand s raw).2) ∧
          (processCommand s raw).1.commandStartTime = s.commandStartTime ∧
          loopStep s (some raw) now = processCommand s raw) := by
  constructor
  · intro h
    have hp := processCommand_stop s raw h
    refine ⟨by rw [hp], by rw [hp]; simp, by rw [hp]; simp, by rw [hp], ?_⟩
    unfold loopStep
    simp only [hp]
    rfl
  · intro h
    have hp := processCommand_learn s raw h
    refine ⟨by rw [hp], ?_, by rw [hp], ?_⟩
    · intro p v
      rw [hp]
      simp
    · unfold loopStep
      simp only [hp]
      rfl

/-- C2 amended witness: STOP and LEARN applied to the concrete
mid-step replay state. -/
theorem C2_stop_learn_abort_witness :
    ((processCommand runningState "STOP").1.mode = -1 ∧
        Effect.analogWrite motorLeftSpeedPin 0 ∈ (processCommand runningState "STOP").2 ∧
        Effect.analogWrite motorRightSpeedPin 0 ∈ (processCommand runningState "STOP").2 ∧
        (processCommand runningState "STOP").1.commandStartTime =
          runningState.commandStartTime ∧
        loopStep runningState (some "STOP") 7 = processCommand runningState "STOP") ∧
      ((processCommand runningState "LEARN").1.mode = 0 ∧
        (∀ p v, Effect.analogWrite p v ∉ (processCommand runningState "LEARN").2) ∧
        (processCommand runningState "LEARN").1.commandStartTime =
          runningState.commandStartTime ∧
        loopStep runningState (some "LEARN") 7 = processCommand runningState "LEARN") :=
  ⟨(C2_stop_learn_abort runningState "STOP" 7).1 (by decide),
   (C2_stop_learn_abort runningState "LEARN" 7).2 (by decide)⟩

/-- C3 fails as stated: in Learn mode the line X:100, whose action
character is none of F, B, L, R, is not rejected at parse time: the
buffer length goes from 0 to 1 and a step with action X is stored. -/
theorem C3_counterexample :
    (runScript initialState [(some "LEARN", 0), (some "X:100", 0)]).commandCount = 1 ∧
      (runScript initialState [(some "LEARN", 0), (some "X:100", 0)]).commandList 0 =
        { action := 'X', duration := 100 } := by
  decide

/-- C3 amended: Learn mode validates only the shape of the line
(length at least 2 and a separator present), not the action character:
the uppercased first character of any such line is stored as the
step's action. An unrecognised action is rejected only at execution
time, where executeCommand prints a diagnostic and writes no pin. -/
theorem C3_any_action_char_stored (s : CState) (raw : String) (k : Nat)
    (c : Char) (d : Nat)
    (hmode : s.mode = 0)
    (h1 : eqIgnoreCase (trimChars raw.toList) ("LEARN".toList) = false)
    (h2 : eqIgnoreCase (trimChars raw.toList) ("REPLAY".toList) = false)
    (h3 : eqIgnoreCase (trimChars raw.toList) ("STOP".toList) = false)
    (hlen : 2 ≤ (trimChars raw.toList).length)
    (hsep : indexOfChar (trimChars raw.toList) ':' = some k)
    (hcap : s.commandCount < MAX_COMMANDS)
    (hc : c ≠ 'F' ∧ c ≠ 'B' ∧ c ≠ 'L' ∧ c ≠ 'R') :
    ((processCommand s raw).1.commandCount = s.commandCount + 1 ∧
        ((processCommand s raw).1.commandList s.commandCount).action =
          (charAt (trimChars raw.toList) 0).toUpper) ∧
      executeCommand c d =
        [Effect.serialPrint "Unknown action: ",
         Effect.serialPrintln (String.mk [c])] := by
  refine ⟨?_, ?_⟩
  · rw [processCommand_learn_store s raw k hmode h1 h2 h3 hlen hsep hcap]
    exact ⟨rfl, by simp⟩
  · unfold executeCommand
    rw [if_neg hc.1, if_neg hc.2.1, if_neg hc.2.2.1, if_neg hc.2.2.2]

/-- C3 amended witness: X:100 in a fresh Learn state, and the
execution-time rejection of the character X. -/
theorem C3_any_action_char_stored_witness :
    ((processCommand learnState "X:100").1.commandCount = learnState.commandCount + 1 ∧
        ((processCommand learnState "X:100").1.commandList learnState.commandCount).action =
          (charAt (trimChars "X:100".toList) 0).toUpper) ∧
      executeCommand 'X' 100 =
        [Effect.serialPrint "Unknown action: ",
         Effect.serialPrintln (String.mk ['X'])] :=
  C3_any_action_char_stored learnState "X:100" 1 'X' 100 rfl (by decide) (by decide)
    (by decide) (by decide) (by decide) (by decide) (by decide)

end MicroController

namespace MicroController

/-- A concrete Learn-mode state whose buffer is at capacity. -/
def fullState : CState :=
  { mode := 0
    commandList := fun _ => { action := 'F', duration := 5 }
    commandCount := 100
    replayIndex := 0
    commandStartTime := 0
    isReplaying := false }

/-- C6: in Learn mode, a well-formed action line received when the
buffer already holds MAX_COMMANDS steps is rejected with the capacity
report and the length stays exactly MAX_COMMANDS; received when the
length is below MAX_COMMANDS, the append succeeds and the length grows
by exactly one. -/
theorem C6_capacity_bound (s : CState) (raw : String) (k : Nat)
    (hmode : s.mode = 0)
    (h1 : eqIgnoreCase (trimChars raw.toList) ("LEARN".toList) = false)
    (h2 : eqIgnoreCase (trimChars raw.toList) ("REPLAY".toList) = false)
    (h3 : eqIgnoreCase (trimChars raw.toList) ("STOP".toList) = false)
    (hlen : 2 ≤ (trimChars raw.toList).length)
    (hsep : indexOfChar (trimChars raw.toList) ':' = some k) :
    (s.commandCount = MAX_COMMANDS →
        (processCommand s raw).1.commandCount = MAX_COMMANDS ∧
          Effect.serialPrintln "Command list is full. Cannot store more commands." ∈
            (processCommand s raw).2) ∧
      (s.commandCount < MAX_COMMANDS →
        (processCommand s raw).1.commandCount = s.commandCount + 1) := by
  constructor
  · intro hfull
    rw [processCommand_learn_full s raw k hmode h1 h2 h3 hlen hsep (by omega)]
    exact ⟨hfull, by simp⟩
  · intro hcap
    rw [processCommand_learn_store s raw k hmode h1 h2 h3 hlen hsep hcap]

/-- C6 witness: F:10 against the full buffer and against the fresh
Learn state. -/
theorem C6_capacity_bound_witness :
    ((processCommand fullState "F:10").1.commandCount = MAX_COMMANDS ∧
        Effect.serialPrintln "Command list is full. Cannot store more commands." ∈
          (processCommand fullState "F:10").2) ∧
      (processCommand learnState "F:10").1.commandCount = learnState.commandCount + 1 :=
  ⟨(C6_capacity_bound fullState "F:10" 1 rfl (by decide) (by decide) (by decide)
        (by decide) (by decide)).1 rfl,
   (C6_capacity_bound learnState "F:10" 1 rfl (by decide) (by decide) (by decide)
        (by decide) (by decide)).2 (by decide)⟩

lemma bool_eq_false {b : Bool} (h : ¬ b = true) : b = false := by
  cases b
  · rfl
  · exact absurd rfl h

lemma processCommand_other (s : CState) (raw : String)
    (h1 : eqIgnoreCase (trimChars raw.toList) ("LEARN".toList) = false)
    (h2 : eqIgnoreCase (trimChars raw.toList) ("REPLAY".toList) = false)
    (h3 : eqIgnoreCase (trimChars raw.toList) ("STOP".toList) = false) :
    (processCommand s raw).1 = s ∨
      ((processCommand s raw).1.mode = s.mode ∧
        (processCommand s raw).1.commandCount = s.commandCount + 1) := by
  unfold processCommand
  rw [if_neg (show ¬ (eqIgnoreCase (trimChars raw.toList) ("LEARN".toList) = true) by
        rw [h1]; decide),
    if_neg (show ¬ (eqIgnoreCase (trimChars raw.toList) ("REPLAY".toList) = true) by
        rw [h2]; decide),
    if_neg (show ¬ (eqIgnoreCase (trimChars raw.toList) ("STOP".toList) = true) by
        rw [h3]; decide)]
  by_cases hm : s.mode = 0
  · rw [if_pos hm]
    by_cases hlen : 2 ≤ (trimChars raw.toList).length
    · rw [if_pos hlen]
      cases hsep : indexOfChar (trimChars raw.toList) ':' with
      | none =>
          simp only [hsep]
          left; trivial
      | some k =>
          simp only [hsep]
          by_cases hcap : s.commandCount < MAX_COMMANDS
          · rw [if_pos hcap]
            right; exact ⟨rfl, rfl⟩
          · rw [if_neg hcap]
            left; rfl
    · rw [if_neg hlen]
      left; rfl
  · rw [if_neg hm]
    left; rfl

lemma processCommand_inv (s : CState) (raw : String)
    (hinv : s.mode = 1 → 1 ≤ s.commandCount) :
    (processCommand s raw).1.mode = 1 → 1 ≤ (processCommand s raw).1.commandCount := by
  by_cases hL : eqIgnoreCase (trimChars raw.toList) ("LEARN".toList) = true
  · rw [processCommand_learn s raw hL]
    intro h
    simp at h
  · by_cases hR : eqIgnoreCase (trimChars raw.toList) ("REPLAY".toList) = true
    · by_cases hempty : s.commandCount = 0
      · rw [processCommand_replay_empty s raw hR hempty]
        exact hinv
      · rw [processCommand_replay_nonempty s raw hR hempty]
        intro _
        show 1 ≤ s.commandCount
        omega
    · by_cases hS : eqIgnoreCase (trimChars raw.toList) ("STOP".toList) = true
      · rw [processCommand_stop s raw hS]
        intro h
        simp at h
      · rcases processCommand_other s raw (bool_eq_false hL) (bool_eq_false hR)
            (bool_eq_false hS) with h | ⟨hm, hc⟩
        · rw [h]; exact hinv
        · rw [hc]; intro _; omega

lemma replayTick_frame (s : CState) (now : Nat) :
    (replayTick s now).1.commandList = s.commandList ∧
      (replayTick s now).1.commandCount = s.commandCount ∧
      ((replayTick s now).1.mode = s.mode ∨ (replayTick s now).1.mode = -1) := by
  unfold replayTick
  split
  · split
    · exact ⟨rfl, rfl, Or.inl rfl⟩
    · simp only []
      split
      · exact ⟨rfl, rfl, Or.inl rfl⟩
      · exact ⟨rfl, rfl, Or.inl rfl⟩
  · split
    · exact ⟨rfl, rfl, Or.inr rfl⟩
    · exact ⟨rfl, rfl, Or.inl rfl⟩

lemma loopStep_inv (s : CState) (line : Option String) (now : Nat)
    (hinv : s.mode = 1 → 1 ≤ s.commandCount) :
    (loopStep s line now).1.mode = 1 → 1 ≤ (loopStep s line now).1.commandCount := by
  have hstep : ∀ q : CState × List Effect, (q.1.mode = 1 → 1 ≤ q.1.commandCount) →
      ((if q.1.mode = 0 then q
        else if q.1.mode = 1 then
          ((replayTick q.1 now).1, q.2 ++ (replayTick q.1 now).2)
        else q).1.mode = 1 →
        1 ≤ (if q.1.mode = 0 then q
          else if q.1.mode = 1 then
            ((replayTick q.1 now).1, q.2 ++ (replayTick q.1 now).2)
          else q).1.commandCount) := by
    intro q hq
    by_cases h0 : q.1.mode = 0
    · rw [if_pos h0]; exact hq
    · rw [if_neg h0]
      by_cases h1 : q.1.mode = 1
      · rw [if_pos h1]
        intro _
        show 1 ≤ (replayTick q.1 now).1.commandCount
        rw [(replayTick_frame q.1 now).2.1]
        exact hq h1
      · rw [if_neg h1]; exact hq
  unfold loopStep
  cases line with
  | none => exact hstep (s, []) hinv
  | some raw => exact hstep (processCommand s raw) (processCommand_inv s raw hinv)

/-- C7: a REPLAY received with an empty buffer leaves the whole state
unchanged and only emits diagnostics; and every loop iteration
preserves the invariant that Replay mode implies a non-empty buffer,
so the mode never becomes Replay with an empty buffer. -/
theorem C7_replay_refused_on_empty_buffer :
    (∀ (s : CState) (raw : String),
        eqIgnoreCase (trimChars raw.toList) ("REPLAY".toList) = true →
        s.commandCount = 0 →
        (processCommand s raw).1 = s ∧
          (processCommand s raw).2 =
            [Effect.serialPrint "Received command: ",
             Effect.serialPrintln (String.mk (trimChars raw.toList)),
             Effect.serialPrintln "No commands to replay."]) ∧
      (∀ (s : CState) (line : Option String) (now : Nat),
        (s.mode = 1 → 1 ≤ s.commandCount) →
        ((loopStep s line now).1.mode = 1 →
          1 ≤ (loopStep s line now).1.commandCount)) :=
  ⟨fun s raw h hempty => by
      rw [processCommand_replay_empty s raw h hempty]
      exact ⟨rfl, rfl⟩,
   fun s line now hinv => loopStep_inv s line now hinv⟩

/-- C7 witness: REPLAY against the initial (idle, empty) state, and
one loop iteration from it. -/
theorem C7_replay_refused_on_empty_buffer_witness :
    ((processCommand initialState "REPLAY").1 = initialState ∧
        (processCommand initialState "REPLAY").2 =
          [Effect.serialPrint "Received command: ",
           Effect.serialPrintln (String.mk (trimChars "REPLAY".toList)),
           Effect.serialPrintln "No commands to replay."]) ∧
      ((loopStep initialState (some "REPLAY") 0).1.mode = 1 →
        1 ≤ (loopStep initialState (some "REPLAY") 0).1.commandCount) :=
  ⟨C7_replay_refused_on_empty_buffer.1 initialState "REPLAY" (by decide) rfl,
   C7_replay_refused_on_empty_buffer.2 initialState (some "REPLAY") 0 (by decide)⟩

end MicroController

namespace MicroController

/-- Is the head of the list a non-digit (or the list empty)?  Used to
say that the digit run consumed by `atol` is empty. -/
def headNonDigit : List Char → Bool
  | [] => true
  | c :: _ => ! c.isDigit

/-- A string is non-numeric for `atol` when, after skipping leading
whitespace and an optional sign, no digit follows. -/
def nonNumeric (l : List Char) : Bool :=
  match l.dropWhile isSpaceChar with
  | [] => true
  | c :: cs =>
      if c = '-' then headNonDigit cs
      else if c = '+' then headNonDigit cs
      else ! c.isDigit

lemma parseDigits_nonDigit (l : List Char) (h : headNonDigit l = true) :
    parseDigits l 0 = 0 := by
  cases l with
  | nil => rfl
  | cons c cs =>
      have hc : c.isDigit = false := by simpa [headNonDigit] using h
      unfold parseDigits
      rw [if_neg (by simp [hc])]

lemma stringToInt_nonNumeric (l : List Char) (h : nonNumeric l = true) :
    stringToInt l = 0 := by
  unfold stringToInt
  cases hd : l.dropWhile isSpaceChar with
  | nil => rfl
  | cons c cs =>
      have h' : (if c = '-' then headNonDigit cs
          else if c = '+' then headNonDigit cs
          else ! c.isDigit) = true := by
        unfold nonNumeric at h
        rw [hd] at h
        exact h
      simp only []
      by_cases hm : c = '-'
      · rw [if_pos hm] at h'
        rw [if_pos hm, parseDigits_nonDigit cs h']
        simp
      · rw [if_neg hm] at h'
        rw [if_neg hm]
        by_cases hp : c = '+'
        · rw [if_pos hp] at h'
          rw [if_pos hp, parseDigits_nonDigit cs h']
          simp
        · rw [if_neg hp] at h'
          rw [if_neg hp,
            parseDigits_nonDigit (c :: cs) (by simpa [headNonDigit] using h')]
          simp

/-- C8: a Learn-mode action line whose duration part is non-numeric
has the single deterministic outcome fixed by `atol`: the duration
parses to 0, so when the buffer is not full a step with the defined
default duration 0 is appended (length + 1), and when the buffer is
full the length is unchanged; processing is total, so no such input
can crash the controller. -/
theorem C8_nonnumeric_duration_defaults_to_zero (s : CState) (raw : String) (k : Nat)
    (hmode : s.mode = 0)
    (h1 : eqIgnoreCase (trimChars raw.toList) ("LEARN".toList) = false)
    (h2 : eqIgnoreCase (trimChars raw.toList) ("REPLAY".toList) = false)
    (h3 : eqIgnoreCase (trimChars raw.toList) ("STOP".toList) = false)
    (hlen : 2 ≤ (trimChars raw.toList).length)
    (hsep : indexOfChar (trimChars raw.toList) ':' = some k)
    (hnn : nonNumeric ((trimChars raw.toList).drop (k + 1)) = true) :
    (s.commandCount < MAX_COMMANDS →
        (processCommand s raw).1.commandCount = s.commandCount + 1 ∧
          ((processCommand s raw).1.commandList s.commandCount).duration = 0) ∧
      (¬ s.commandCount < MAX_COMMANDS →
        (processCommand s raw).1.commandCount = s.commandCount) := by
  have hdur : toULong (stringToInt ((trimChars raw.toList).drop (k + 1))) = 0 := by
    rw [stringToInt_nonNumeric _ hnn]
    decide
  constructor
  · intro hcap
    rw [processCommand_learn_store s raw k hmode h1 h2 h3 hlen hsep hcap]
    refine ⟨rfl, ?_⟩
    show Command.duration
        (if s.commandCount = s.commandCount then
          { action := (charAt (trimChars raw.toList) 0).toUpper,
            duration := toULong (stringToInt ((trimChars raw.toList).drop (k + 1))) }
        else s.commandList s.commandCount) = 0
    rw [if_pos rfl]
    exact hdur
  · intro hcap
    rw [processCommand_learn_full s raw k hmode h1 h2 h3 hlen hsep hcap]

/-- C8 witness: F:abc in the fresh Learn state appends a step with
duration 0, and against the full buffer leaves the length at 100. -/
theorem C8_nonnumeric_duration_defaults_to_zero_witness :
    ((processCommand learnState "F:abc").1.commandCount = learnState.commandCount + 1 ∧
        ((processCommand learnState "F:abc").1.commandList
            learnState.commandCount).duration = 0) ∧
      (processCommand fullState "F:abc").1.commandCount = fullState.commandCount :=
  ⟨(C8_nonnumeric_duration_defaults_to_zero learnState "F:abc" 1 rfl (by decide)
        (by decide) (by decide) (by decide) (by decide) (by decide)).1 (by decide),
   (C8_nonnumeric_duration_defaults_to_zero fullState "F:abc" 1 rfl (by decide)
        (by decide) (by decide) (by decide) (by decide) (by decide)).2 (by decide)⟩

/-- C10: STOP handling and the replay tick (including the finishing
tick) change neither the stored commands nor the length; LEARN resets
the length to 0; and any command handling that takes the length to 0
either found it 0 already or was a LEARN.  Hence the buffer surviving
a STOP or a finished replay, a new REPLAY replays the same recorded
sequence. -/
theorem C10_buffer_survives_stop_and_replay :
    (∀ (s : CState) (raw : String),
        eqIgnoreCase (trimChars raw.toList) ("STOP".toList) = true →
        (processCommand s raw).1.commandList = s.commandList ∧
          (processCommand s raw).1.commandCount = s.commandCount) ∧
      (∀ (s : CState) (now : Nat),
        (replayTick s now).1.commandList = s.commandList ∧
          (replayTick s now).1.commandCount = s.commandCount) ∧
      (∀ (s : CState) (raw : String),
        eqIgnoreCase (trimChars raw.toList) ("LEARN".toList) = true →
        (processCommand s raw).1.commandCount = 0) ∧
      (∀ (s : CState) (raw : String),
        (processCommand s raw).1.commandCount = 0 →
        s.commandCount = 0 ∨
          eqIgnoreCase (trimChars raw.toList) ("LEARN".toList) = true) := by
  refine ⟨?_, ?_, ?_, ?_⟩
  · intro s raw h
    rw [processCommand_stop s raw h]
    exact ⟨rfl, rfl⟩
  · intro s now
    exact ⟨(replayTick_frame s now).1, (replayTick_frame s now).2.1⟩
  · intro s raw h
    rw [processCommand_learn s raw h]
  · intro s raw
    by_cases hL : eqIgnoreCase (trimChars raw.toList) ("LEARN".toList) = true
    · intro _
      exact Or.inr hL
    · by_cases hR : eqIgnoreCase (trimChars raw.toList) ("REPLAY".toList) = true
      · by_cases hempty : s.commandCount = 0
        · intro _
          exact Or.inl hempty
        · rw [processCommand_replay_nonempty s raw hR hempty]
          intro h
          exact Or.inl h
      · by_cases hS : eqIgnoreCase (trimChars raw.toList) ("STOP".toList) = true
        · rw [processCommand_stop s raw hS]
          intro h
          exact Or.inl h
        · rcases processCommand_other s raw (bool_eq_false hL) (bool_eq_false hR)
              (bool_eq_false hS) with h | ⟨hm, hc⟩
          · rw [h]
            intro h0
            exact Or.inl h0
          · rw [hc]
            intro h0
            exact absurd h0 (Nat.succ_ne_zero _)

/-- C10 witness: STOP and LEARN against the concrete mid-step replay
state, and the only-LEARN-clears direction at the same state. -/
theorem C10_buffer_survives_stop_and_replay_witness :
    ((processCommand runningState "STOP").1.commandList = runningState.commandList ∧
        (processCommand runningState "STOP").1.commandCount = runningState.commandCount) ∧
      (processCommand runningState "LEARN").1.commandCount = 0 ∧
      (runningState.commandCount = 0 ∨
        eqIgnoreCase (trimChars "LEARN".toList) ("LEARN".toList) = true) :=
  ⟨C10_buffer_survives_stop_and_replay.1 runningState "STOP" (by decide),
   C10_buffer_survives_stop_and_replay.2.2.1 runningState "LEARN" (by decide),
   C10_buffer_survives_stop_and_replay.2.2.2 runningState "LEARN" (by decide)⟩

end MicroController
